import Mathlib

/-!
Verification of the physical-device selection and queue-family resolution
logic of `src/main.rs` (hi-vulkanos), shallowly embedded in Lean.

The embedding mirrors the source:
* capability flags of a queue family are a finite set of bits, modelled as a
  list of `QueueFlag`s; `intersects` and `containsAll` are vulkano's
  `QueueFlags::intersects` and `QueueFlags::contains` (superset);
* a physical device carries its supported extension names, its ordered queue
  family list and its device type (`p.supported_extensions()`,
  `p.queue_family_properties()`, `p.properties().device_type`);
* `select` is the iterator chain of `main.rs` lines 45-66:
  `filter(supported_extensions.contains)`, then `filter_map(position
  (queue_flags.intersects GRAPHICS))` - the `surface_support` conjunct is
  commented out in the source and hence absent here - then `min_by_key`
  over the device-type ranking, with the `expect` modelled as `Except`;
* `resolve` is lines 78-86: `position (queue_flags.contains GRAPHICS)` with
  its `expect` modelled as `Except`;
* `requestedMinImageCount` is line 123: `min_image_count.max(2)`.
Both `select` and `resolve` are parameterised by the required flag set the
source hard-codes to `GRAPHICS`, so that the asymmetric intersects/contains
behaviour can be stated for general flag sets.
-/

/-- Capability bits of a queue family (vulkano `QueueFlags` bits used here). -/
inductive QueueFlag where
  | Graphics
  | Compute
  | Transfer
  | SparseBinding
  deriving DecidableEq, Repr

/-- Flag sets: `a.intersects b` holds when the two bit sets share a bit
(vulkano `QueueFlags::intersects`). -/
def intersects (a b : List QueueFlag) : Bool :=
  a.any (fun f => b.contains f)

/-- Flag sets: `containsAll a b` holds when `a` is a superset of `b`
(vulkano `QueueFlags::contains`). -/
def containsAll (a b : List QueueFlag) : Bool :=
  b.all (fun f => a.contains f)

/-- One entry of `queue_family_properties()`: its capability flags, plus the
answer the surface collaborator would give for `surface_support` on this
family (the call on line 54 of the source is commented out, so `select`
never reads this field). -/
structure QueueFamilyProperties where
  queue_flags : List QueueFlag
  surface_support : Bool
  deriving DecidableEq, Repr

/-- Device classes (vulkano `PhysicalDeviceType`); `Unrecognized` stands for
the non-exhaustive variants caught by the `_ => 5` arm of the source. -/
inductive PhysicalDeviceType where
  | DiscreteGpu
  | IntegratedGpu
  | VirtualGpu
  | Cpu
  | Other
  | Unrecognized
  deriving DecidableEq, Repr

/-- A candidate physical device as the selection code observes it. -/
structure PhysicalDevice where
  supported_extensions : List String
  queue_family_properties : List QueueFamilyProperties
  device_type : PhysicalDeviceType
  deriving DecidableEq, Repr

/-- Extension-set superset test: vulkano `DeviceExtensions::contains`,
`sup.contains(req)` meaning every required extension is supported. -/
def extensionsContain (sup req : List String) : Bool :=
  req.all (fun e => sup.contains e)

/-- Rust `Iterator::position`: index of the first element satisfying `p`. -/
def position (p : α → Bool) : List α → Option Nat
  | [] => none
  | x :: xs => if p x then some 0 else (position p xs).map (· + 1)

/-- Rust `Iterator::min_by_key`: minimum by key, first minimal element wins
on ties (`core::cmp::min_by` keeps the accumulated element unless the new
one is strictly smaller). -/
def minByKey (key : α → Nat) : List α → Option α
  | [] => none
  | x :: xs => some (xs.foldl (fun acc y => if key y < key acc then y else acc) x)

/-- The ranking of `min_by_key` in `main.rs` lines 58-65. -/
def deviceTypeRank : PhysicalDeviceType → Nat
  | .DiscreteGpu => 0
  | .IntegratedGpu => 1
  | .VirtualGpu => 2
  | .Cpu => 3
  | .Other => 4
  | .Unrecognized => 5

/-- The required device extensions of `main.rs` lines 40-43
(`khr_swapchain: true`). -/
def device_extensions : List String := ["VK_KHR_swapchain"]

/-- The required queue flags the source hard-codes: `QueueFlags::GRAPHICS`. -/
def GRAPHICS : List QueueFlag := [QueueFlag.Graphics]

/-- Error of the `expect("No suitable physical device could be found.")`. -/
inductive SelectError where
  | NoSuitableDeviceError
  deriving DecidableEq, Repr

/-- Error of the `expect("couldn't find a graphical queue family")`. -/
inductive ResolveError where
  | NoQueueFamilyError
  deriving DecidableEq, Repr

/-- The survivors of the two filters of `main.rs` lines 48-57: devices whose
extension set contains the required extensions and which have some queue
family whose flags intersect the required flags (`filter_map` keeps `p`
exactly when the inner `position` is `Some`). -/
def survivors (candidates : List PhysicalDevice) (requiredExtensions : List String)
    (requiredFlags : List QueueFlag) : List PhysicalDevice :=
  (candidates.filter
      (fun p => extensionsContain p.supported_extensions requiredExtensions)).filter
    (fun p =>
      (position (fun q => intersects q.queue_flags requiredFlags)
          p.queue_family_properties).isSome)

/-- Device selection, `main.rs` lines 45-66: filter on extensions, filter on
existence of a flag-intersecting queue family, then `min_by_key` on the
device-type rank; an empty result is the `NoSuitableDeviceError` failure. -/
def select (candidates : List PhysicalDevice) (requiredExtensions : List String)
    (requiredFlags : List QueueFlag) : Except SelectError PhysicalDevice :=
  match minByKey (fun p => deviceTypeRank p.device_type)
      (survivors candidates requiredExtensions requiredFlags) with
  | some p => .ok p
  | none => .error .NoSuitableDeviceError

/-- Queue-family resolution, `main.rs` lines 78-86: position of the first
family whose flags contain (superset) the required flags; `None` is the
`NoQueueFamilyError` failure. -/
def resolve (device : PhysicalDevice) (requiredFlags : List QueueFlag) :
    Except ResolveError Nat :=
  match position (fun q => containsAll q.queue_flags requiredFlags)
      device.queue_family_properties with
  | some i => .ok i
  | none => .error .NoQueueFamilyError

/-- Requested swapchain image count, `main.rs` line 123:
`surface_capabilities.min_image_count.max(2)`. -/
def requestedMinImageCount (surfaceMinImageCount : Nat) : Nat :=
  Nat.max surfaceMinImageCount 2

/-- A candidate passes both per-device filters of `select`: its extensions
contain the required ones and some queue family's flags intersect the
required flags. -/
def suitable (requiredExtensions : List String) (requiredFlags : List QueueFlag)
    (d : PhysicalDevice) : Bool :=
  extensionsContain d.supported_extensions requiredExtensions &&
    (position (fun q => intersects q.queue_flags requiredFlags)
        d.queue_family_properties).isSome

/-! ### Helper lemmas about `position`, `minByKey`, `survivors` and `select` -/

theorem position_eq_none_iff (p : α → Bool) (xs : List α) :
    position p xs = none ↔ ∀ x ∈ xs, p x = false := by
  induction xs with
  | nil => simp [position]
  | cons x xs ih =>
    by_cases hx : p x
    · simp [position, hx]
    · simp [position, hx, ih, Option.map_eq_none', Bool.not_eq_true]

theorem position_eq_some (p : α → Bool) (xs : List α) (i : Nat)
    (h : position p xs = some i) :
    ∃ x, xs.get? i = some x ∧ p x = true ∧
      ∀ j, j < i → ∀ y, xs.get? j = some y → p y = false := by
  induction xs generalizing i with
  | nil => simp [position] at h
  | cons x xs ih =>
    by_cases hx : p x
    · simp [position, hx] at h
      subst h
      exact ⟨x, rfl, hx, fun j hj => by omega⟩
    · simp [position, hx] at h
      obtain ⟨i', hi', rfl⟩ := h
      obtain ⟨y, hy, hpy, hbefore⟩ := ih i' hi'
      refine ⟨y, by simpa using hy, hpy, ?_⟩
      intro j hj z hz
      cases j with
      | zero =>
        simp at hz
        subst hz
        simpa using hx
      | succ j' =>
        exact hbefore j' (by omega) z (by simpa using hz)

theorem position_isSome_iff (p : α → Bool) (xs : List α) :
    (position p xs).isSome = true ↔ ∃ x ∈ xs, p x = true := by
  rw [Option.isSome_iff_ne_none]
  constructor
  · intro h
    by_contra hno
    push_neg at hno
    exact h ((position_eq_none_iff p xs).2 (by simpa [Bool.not_eq_true] using hno))
  · intro ⟨x, hmem, hpx⟩ hnone
    have := (position_eq_none_iff p xs).1 hnone x hmem
    simp [hpx] at this

theorem foldl_min_decomp (key : α → Nat) (xs : List α) : ∀ (a r : α),
    xs.foldl (fun acc z => if key z < key acc then z else acc) a = r →
    ∃ l₁ l₂, a :: xs = l₁ ++ r :: l₂ ∧
      (∀ x ∈ l₁, key r < key x) ∧ (∀ x ∈ l₂, key r ≤ key x) := by
  induction xs with
  | nil =>
    intro a r h
    simp at h
    exact ⟨[], [], by simp [h], by simp, by simp⟩
  | cons y ys ih =>
    intro a r h
    by_cases hy : key y < key a
    · have hstep : ys.foldl (fun acc z => if key z < key acc then z else acc) y = r := by
        simpa [List.foldl, hy] using h
      obtain ⟨l₁, l₂, hdec, hlt, hle⟩ := ih y r hstep
      have hry : key r ≤ key y := by
        cases l₁ with
        | nil =>
          simp at hdec
          rw [hdec.1]
        | cons w l₁' =>
          have hyw : y = w := by
            have := congrArg (fun l => List.head? l) hdec
            simpa using this
          exact Nat.le_of_lt (hlt y (by simp [hyw]))
      refine ⟨a :: l₁, l₂, by simp [hdec], ?_, hle⟩
      intro x hx
      rcases List.mem_cons.1 hx with rfl | hx'
      · exact Nat.lt_of_le_of_lt hry hy
      · exact hlt x hx'
    · have hay : key a ≤ key y := Nat.le_of_not_lt hy
      have hstep : ys.foldl (fun acc z => if key z < key acc then z else acc) a = r := by
        simpa [List.foldl, hy] using h
      obtain ⟨l₁, l₂, hdec, hlt, hle⟩ := ih a r hstep
      cases l₁ with
      | nil =>
        simp at hdec
        obtain ⟨rfl, rfl⟩ := hdec
        refine ⟨[], y :: ys, by simp, by simp, ?_⟩
        intro x hx
        rcases List.mem_cons.1 hx with rfl | hx'
        · exact hay
        · exact hle x hx'
      | cons w l₁' =>
        have haw : a = w ∧ ys = l₁' ++ r :: l₂ := by
          have h1 := congrArg (fun l => List.head? l) hdec
          have h2 := congrArg (fun l => List.tail l) hdec
          simp at h1 h2
          exact ⟨h1, h2⟩
        obtain ⟨rfl, hys⟩ := haw
        have hra : key r < key a := hlt a (by simp)
        refine ⟨a :: y :: l₁', l₂, by simp [hys], ?_, hle⟩
        intro x hx
        rcases List.mem_cons.1 hx with rfl | hx'
        · exact hra
        · rcases List.mem_cons.1 hx' with rfl | hx''
          · exact Nat.lt_of_lt_of_le hra hay
          · exact hlt x (by simp [hx''])

theorem minByKey_decomp (key : α → Nat) (xs : List α) (r : α)
    (h : minByKey key xs = some r) :
    ∃ l₁ l₂, xs = l₁ ++ r :: l₂ ∧
      (∀ x ∈ l₁, key r < key x) ∧ (∀ x ∈ l₂, key r ≤ key x) := by
  cases xs with
  | nil => simp [minByKey] at h
  | cons x xs =>
    have hr : xs.foldl (fun acc z => if key z < key acc then z else acc) x = r := by
      simpa [minByKey] using h
    exact foldl_min_decomp key xs x r hr

theorem minByKey_mem (key : α → Nat) (xs : List α) (r : α)
    (h : minByKey key xs = some r) : r ∈ xs := by
  obtain ⟨l₁, l₂, hdec, -, -⟩ := minByKey_decomp key xs r h
  simp [hdec]

theorem minByKey_le (key : α → Nat) (xs : List α) (r : α)
    (h : minByKey key xs = some r) : ∀ x ∈ xs, key r ≤ key x := by
  obtain ⟨l₁, l₂, hdec, hlt, hle⟩ := minByKey_decomp key xs r h
  intro x hx
  rw [hdec] at hx
  rcases List.mem_append.1 hx with hx' | hx'
  · exact Nat.le_of_lt (hlt x hx')
  · rcases List.mem_cons.1 hx' with rfl | hx''
    · exact Nat.le_refl _
    · exact hle x hx''

theorem select_eq_ok_iff (candidates : List PhysicalDevice)
    (requiredExtensions : List String) (requiredFlags : List QueueFlag)
    (d : PhysicalDevice) :
    select candidates requiredExtensions requiredFlags = .ok d ↔
      minByKey (fun p => deviceTypeRank p.device_type)
        (survivors candidates requiredExtensions requiredFlags) = some d := by
  unfold select
  cases h : minByKey (fun p => deviceTypeRank p.device_type)
      (survivors candidates requiredExtensions requiredFlags) with
  | none => simp
  | some p => simp

theorem mem_survivors (candidates : List PhysicalDevice)
    (requiredExtensions : List String) (requiredFlags : List QueueFlag)
    (d : PhysicalDevice) :
    d ∈ survivors candidates requiredExtensions requiredFlags ↔
      d ∈ candidates ∧ suitable requiredExtensions requiredFlags d = true := by
  simp [survivors, suitable, List.mem_filter, and_assoc, Bool.and_eq_true]
  tauto

theorem minByKey_isSome (key : α → Nat) (xs : List α) (hx : xs ≠ []) :
    ∃ r, minByKey key xs = some r := by
  cases xs with
  | nil => simp at hx
  | cons x xs => exact ⟨_, rfl⟩

theorem resolve_eq_ok_iff (d : PhysicalDevice) (requiredFlags : List QueueFlag) (i : Nat) :
    resolve d requiredFlags = .ok i ↔
      position (fun q => containsAll q.queue_flags requiredFlags)
        d.queue_family_properties = some i := by
  unfold resolve
  cases h : position (fun q => containsAll q.queue_flags requiredFlags)
      d.queue_family_properties with
  | none => simp
  | some j => simp

theorem deviceTypeRank_eq_zero (t : PhysicalDeviceType)
    (h : deviceTypeRank t = 0) : t = PhysicalDeviceType.DiscreteGpu := by
  cases t
  · rfl
  all_goals simp [deviceTypeRank] at h

theorem intersects_singleton_iff (a : List QueueFlag) (g : QueueFlag) :
    intersects a [g] = true ↔ g ∈ a := by
  simp [intersects]

theorem containsAll_singleton_iff (a : List QueueFlag) (g : QueueFlag) :
    containsAll a [g] = true ↔ g ∈ a := by
  simp [containsAll]

theorem intersects_graphics_eq_containsAll (a : List QueueFlag) :
    intersects a GRAPHICS = containsAll a GRAPHICS := by
  rw [Bool.eq_iff_iff, GRAPHICS, intersects_singleton_iff, containsAll_singleton_iff]

/-! ### Claim C1 -/

/-- A device whose only queue family has graphics flags but reports no
presentation support for the supplied surface. -/
def deviceAllFamiliesNoPresent : PhysicalDevice :=
  ⟨["VK_KHR_swapchain"], [⟨[QueueFlag.Graphics], false⟩],
    PhysicalDeviceType.DiscreteGpu⟩

/-- C1 counterexample: the source's presentation-support conjunct is commented
out (`main.rs` line 54), so a device every one of whose queue families reports
presentation support as `false` for the supplied surface is nevertheless
returned by `select` - contradicting the claim that such a device is never
returned. -/
theorem C1_counterexample :
    (deviceAllFamiliesNoPresent.queue_family_properties.map
        QueueFamilyProperties.surface_support) = [false] ∧
    select [deviceAllFamiliesNoPresent] device_extensions GRAPHICS =
      .ok deviceAllFamiliesNoPresent :=
  ⟨rfl, rfl⟩

/-- C1 (amended): in device selection, every candidate that has no queue
family whose flags intersect the required queue flags is filtered out; the
presentation-support requirement is not enforced, because the
`surface_support` conjunct is commented out in the source. -/
theorem C1_no_intersecting_family_excluded
    (candidates : List PhysicalDevice) (requiredExtensions : List String)
    (requiredFlags : List QueueFlag) (d : PhysicalDevice)
    (h : ∀ q ∈ d.queue_family_properties,
      intersects q.queue_flags requiredFlags = false) :
    select candidates requiredExtensions requiredFlags ≠ .ok d := by
  intro hsel
  have hmem := minByKey_mem _ _ _ ((select_eq_ok_iff _ _ _ _).1 hsel)
  obtain ⟨-, hsuit⟩ := (mem_survivors _ _ _ _).1 hmem
  simp only [suitable, Bool.and_eq_true] at hsuit
  obtain ⟨q, hq, hint⟩ := (position_isSome_iff _ _).1 hsuit.2
  rw [h q hq] at hint
  cases hint

/-- C1 witness: a device whose only family has transfer-only flags is never
returned when graphics is required. -/
theorem C1_no_intersecting_family_excluded_witness :
    select [⟨["VK_KHR_swapchain"], [⟨[QueueFlag.Transfer], true⟩],
        PhysicalDeviceType.DiscreteGpu⟩] device_extensions GRAPHICS ≠
      .ok ⟨["VK_KHR_swapchain"], [⟨[QueueFlag.Transfer], true⟩],
        PhysicalDeviceType.DiscreteGpu⟩ :=
  C1_no_intersecting_family_excluded _ device_extensions GRAPHICS _ (by decide)

/-! ### Claim C2 -/

/-- C2: when `select` succeeds, the returned device is the first survivor of
the filters achieving the minimal device-class rank: every survivor before it
ranks strictly worse and every survivor after it ranks no better. In
particular, of two or more qualifying candidates of equal minimal class, the
one appearing first in the input sequence is returned; `select` is a pure
function of its input, so this tie-break is deterministic across runs. -/
theorem C2_first_minimal_survivor
    (candidates : List PhysicalDevice) (requiredExtensions : List String)
    (requiredFlags : List QueueFlag) (d : PhysicalDevice)
    (h : select candidates requiredExtensions requiredFlags = .ok d) :
    ∃ l₁ l₂,
      survivors candidates requiredExtensions requiredFlags = l₁ ++ d :: l₂ ∧
      (∀ x ∈ l₁, deviceTypeRank d.device_type < deviceTypeRank x.device_type) ∧
      (∀ x ∈ l₂, deviceTypeRank d.device_type ≤ deviceTypeRank x.device_type) :=
  minByKey_decomp _ _ _ ((select_eq_ok_iff _ _ _ _).1 h)

/-- First of two discrete qualifying candidates of the tie-break scenario. -/
def tieFirstDiscrete : PhysicalDevice :=
  ⟨["VK_KHR_swapchain"], [⟨[QueueFlag.Graphics], true⟩],
    PhysicalDeviceType.DiscreteGpu⟩

/-- Second of two discrete qualifying candidates of the tie-break scenario. -/
def tieSecondDiscrete : PhysicalDevice :=
  ⟨["VK_KHR_swapchain", "VK_KHR_maintenance1"],
    [⟨[QueueFlag.Graphics, QueueFlag.Transfer], true⟩],
    PhysicalDeviceType.DiscreteGpu⟩

/-- C2 witness: with two qualifying discrete devices, `select` returns the
first-listed one, which heads the survivor decomposition. -/
theorem C2_first_minimal_survivor_witness :
    select [tieFirstDiscrete, tieSecondDiscrete] device_extensions GRAPHICS =
      .ok tieFirstDiscrete ∧
    ∃ l₁ l₂,
      survivors [tieFirstDiscrete, tieSecondDiscrete] device_extensions
          GRAPHICS = l₁ ++ tieFirstDiscrete :: l₂ ∧
      (∀ x ∈ l₁, deviceTypeRank tieFirstDiscrete.device_type <
        deviceTypeRank x.device_type) ∧
      (∀ x ∈ l₂, deviceTypeRank tieFirstDiscrete.device_type ≤
        deviceTypeRank x.device_type) :=
  ⟨rfl, C2_first_minimal_survivor [tieFirstDiscrete, tieSecondDiscrete]
    device_extensions GRAPHICS tieFirstDiscrete rfl⟩

/-! ### Claim C3 -/

/-- C3: the ranking is strict with Discrete preferred over Integrated over
Virtual over CPU over Other, and whenever a discrete-class device survives
the filters, the device `select` returns is of discrete class. -/
theorem C3_ranking_prefers_discrete
    (candidates : List PhysicalDevice) (requiredExtensions : List String)
    (requiredFlags : List QueueFlag) (d : PhysicalDevice)
    (hmem : d ∈ survivors candidates requiredExtensions requiredFlags)
    (hdisc : d.device_type = PhysicalDeviceType.DiscreteGpu) :
    (deviceTypeRank PhysicalDeviceType.DiscreteGpu <
        deviceTypeRank PhysicalDeviceType.IntegratedGpu ∧
      deviceTypeRank PhysicalDeviceType.IntegratedGpu <
        deviceTypeRank PhysicalDeviceType.VirtualGpu ∧
      deviceTypeRank PhysicalDeviceType.VirtualGpu <
        deviceTypeRank PhysicalDeviceType.Cpu ∧
      deviceTypeRank PhysicalDeviceType.Cpu <
        deviceTypeRank PhysicalDeviceType.Other) ∧
    ∃ d', select candidates requiredExtensions requiredFlags = .ok d' ∧
      d'.device_type = PhysicalDeviceType.DiscreteGpu := by
  refine ⟨⟨by decide, by decide, by decide, by decide⟩, ?_⟩
  have hne : survivors candidates requiredExtensions requiredFlags ≠ [] := by
    intro hnil
    rw [hnil] at hmem
    cases hmem
  obtain ⟨r, hr⟩ := minByKey_isSome
    (fun p => deviceTypeRank p.device_type) _ hne
  have hle := minByKey_le _ _ _ hr d hmem
  rw [hdisc] at hle
  have hzero : deviceTypeRank r.device_type = 0 := Nat.le_zero.1 hle
  exact ⟨r, (select_eq_ok_iff _ _ _ _).2 hr,
    deviceTypeRank_eq_zero _ hzero⟩

/-- An integrated-class qualifying candidate for the ranking scenario. -/
def rankIntegrated : PhysicalDevice :=
  ⟨["VK_KHR_swapchain"], [⟨[QueueFlag.Graphics], true⟩],
    PhysicalDeviceType.IntegratedGpu⟩

/-- A discrete-class qualifying candidate for the ranking scenario. -/
def rankDiscrete : PhysicalDevice :=
  ⟨["VK_KHR_swapchain"], [⟨[QueueFlag.Graphics], true⟩],
    PhysicalDeviceType.DiscreteGpu⟩

/-- A CPU-class qualifying candidate for the ranking scenario. -/
def rankCpu : PhysicalDevice :=
  ⟨["VK_KHR_swapchain"], [⟨[QueueFlag.Graphics], true⟩],
    PhysicalDeviceType.Cpu⟩

/-- C3 witness: with one Integrated, one Discrete and one CPU candidate all
qualifying, the selected device is the discrete one. -/
theorem C3_ranking_prefers_discrete_witness :
    (deviceTypeRank PhysicalDeviceType.DiscreteGpu <
        deviceTypeRank PhysicalDeviceType.IntegratedGpu ∧
      deviceTypeRank PhysicalDeviceType.IntegratedGpu <
        deviceTypeRank PhysicalDeviceType.VirtualGpu ∧
      deviceTypeRank PhysicalDeviceType.VirtualGpu <
        deviceTypeRank PhysicalDeviceType.Cpu ∧
      deviceTypeRank PhysicalDeviceType.Cpu <
        deviceTypeRank PhysicalDeviceType.Other) ∧
    ∃ d', select [rankIntegrated, rankDiscrete, rankCpu] device_extensions
        GRAPHICS = .ok d' ∧
      d'.device_type = PhysicalDeviceType.DiscreteGpu :=
  C3_ranking_prefers_discrete [rankIntegrated, rankDiscrete, rankCpu]
    device_extensions GRAPHICS rankDiscrete (by decide) rfl

/-! ### Claim C4 -/

/-- C4: the per-device existence probe of `select` accepts a queue family
whose flags merely intersect the required flags, while `resolve` accepts only
a family whose flags fully contain them: with required flags
`{Graphics, Compute}`, a device whose single family has flags `{Graphics}`
passes the probe and is selected, yet `resolve` rejects every family of that
same device and fails. -/
theorem C4_probe_intersects_resolution_contains :
    intersects [QueueFlag.Graphics] [QueueFlag.Graphics, QueueFlag.Compute] =
      true ∧
    containsAll [QueueFlag.Graphics] [QueueFlag.Graphics, QueueFlag.Compute] =
      false ∧
    select [⟨["VK_KHR_swapchain"], [⟨[QueueFlag.Graphics], true⟩],
        PhysicalDeviceType.DiscreteGpu⟩] device_extensions
        [QueueFlag.Graphics, QueueFlag.Compute] =
      .ok ⟨["VK_KHR_swapchain"], [⟨[QueueFlag.Graphics], true⟩],
        PhysicalDeviceType.DiscreteGpu⟩ ∧
    resolve ⟨["VK_KHR_swapchain"], [⟨[QueueFlag.Graphics], true⟩],
        PhysicalDeviceType.DiscreteGpu⟩
        [QueueFlag.Graphics, QueueFlag.Compute] =
      .error ResolveError.NoQueueFamilyError :=
  ⟨rfl, rfl, rfl, rfl⟩

/-! ### Claim C5 -/

/-- A qualifying device whose only family lacks presentation support, used to
refute the presentation conjunct of the selection invariant. -/
def deviceChosenNoPresent : PhysicalDevice :=
  ⟨["VK_KHR_swapchain"], [⟨[QueueFlag.Graphics], false⟩],
    PhysicalDeviceType.IntegratedGpu⟩

/-- C5 counterexample: a successful selection whose chosen queue family (the
one `resolve` returns, index 0) reports presentation support `false` for the
supplied surface - the presentation conjunct of the claimed invariant does
not hold, because the source never consults `surface_support`. -/
theorem C5_counterexample :
    select [deviceChosenNoPresent] device_extensions GRAPHICS =
      .ok deviceChosenNoPresent ∧
    resolve deviceChosenNoPresent GRAPHICS = .ok 0 ∧
    (deviceChosenNoPresent.queue_family_properties.map
      QueueFamilyProperties.surface_support) = [false] :=
  ⟨rfl, rfl, rfl⟩

/-- C5 (amended): for every successful selection, the chosen device's
supported extension set is a superset of the required extensions, and the
queue family subsequently chosen by `resolve` has flags that are a superset
of the required queue flags; presentation support of the chosen family is
not guaranteed, since the surface check is commented out in the source. -/
theorem C5_selection_invariant
    (candidates : List PhysicalDevice) (requiredExtensions : List String)
    (requiredFlags : List QueueFlag) (d : PhysicalDevice) (i : Nat)
    (q : QueueFamilyProperties)
    (hsel : select candidates requiredExtensions requiredFlags = .ok d)
    (hres : resolve d requiredFlags = .ok i)
    (hq : d.queue_family_properties.get? i = some q) :
    extensionsContain d.supported_extensions requiredExtensions = true ∧
    containsAll q.queue_flags requiredFlags = true := by
  have hmem := minByKey_mem _ _ _ ((select_eq_ok_iff _ _ _ _).1 hsel)
  obtain ⟨-, hsuit⟩ := (mem_survivors _ _ _ _).1 hmem
  simp only [suitable, Bool.and_eq_true] at hsuit
  refine ⟨hsuit.1, ?_⟩
  obtain ⟨x, hx, hpx, -⟩ :=
    position_eq_some _ _ _ ((resolve_eq_ok_iff _ _ _).1 hres)
  rw [hq] at hx
  cases hx
  exact hpx

/-- C5 witness: a concrete successful selection satisfying the amended
invariant. -/
theorem C5_selection_invariant_witness :
    extensionsContain
      (⟨["VK_KHR_swapchain"], [⟨[QueueFlag.Graphics], true⟩],
        PhysicalDeviceType.DiscreteGpu⟩ : PhysicalDevice).supported_extensions
      device_extensions = true ∧
    containsAll [QueueFlag.Graphics] GRAPHICS = true :=
  C5_selection_invariant
    [⟨["VK_KHR_swapchain"], [⟨[QueueFlag.Graphics], true⟩],
      PhysicalDeviceType.DiscreteGpu⟩]
    device_extensions GRAPHICS
    ⟨["VK_KHR_swapchain"], [⟨[QueueFlag.Graphics], true⟩],
      PhysicalDeviceType.DiscreteGpu⟩
    0 ⟨[QueueFlag.Graphics], true⟩ rfl rfl rfl

/-! ### Claim C6 -/

/-- C6: when `resolve` returns index `i`, the family at index `i` fully
contains the required flags and every family at a smaller index does not:
`resolve` scans the queue family list in index order and returns the first
full match. -/
theorem C6_resolve_returns_first_containing
    (d : PhysicalDevice) (requiredFlags : List QueueFlag) (i : Nat)
    (h : resolve d requiredFlags = .ok i) :
    ∃ q, d.queue_family_properties.get? i = some q ∧
      containsAll q.queue_flags requiredFlags = true ∧
      ∀ j, j < i → ∀ q', d.queue_family_properties.get? j = some q' →
        containsAll q'.queue_flags requiredFlags = false :=
  position_eq_some _ _ _ ((resolve_eq_ok_iff _ _ _).1 h)

/-- The three-family device of the C6 scenario: flags `{Transfer}`,
`{Graphics, Transfer}`, `{Graphics}` at indices 0, 1, 2. -/
def threeFamilyDevice : PhysicalDevice :=
  ⟨["VK_KHR_swapchain"],
    [⟨[QueueFlag.Transfer], true⟩,
      ⟨[QueueFlag.Graphics, QueueFlag.Transfer], true⟩,
      ⟨[QueueFlag.Graphics], true⟩],
    PhysicalDeviceType.DiscreteGpu⟩

/-- C6 witness: on families `[{Transfer}, {Graphics,Transfer}, {Graphics}]`
with required flags `{Graphics}`, `resolve` returns index 1, not 2, and index
1 is the first full match. -/
theorem C6_resolve_returns_first_containing_witness :
    resolve threeFamilyDevice GRAPHICS = .ok 1 ∧
    ∃ q, threeFamilyDevice.queue_family_properties.get? 1 = some q ∧
      containsAll q.queue_flags GRAPHICS = true ∧
      ∀ j, j < 1 → ∀ q', threeFamilyDevice.queue_family_properties.get? j =
          some q' → containsAll q'.queue_flags GRAPHICS = false :=
  ⟨rfl, C6_resolve_returns_first_containing threeFamilyDevice GRAPHICS 1 rfl⟩

/-! ### Claim C7 -/

/-- C7: when no candidate satisfies the selection criteria (extension
superset plus an intersecting queue family), `select` fails with
`NoSuitableDeviceError`, and the filtered survivor list is empty, so no
partial result exists. -/
theorem C7_select_fails_when_none_suitable
    (candidates : List PhysicalDevice) (requiredExtensions : List String)
    (requiredFlags : List QueueFlag)
    (h : ∀ d ∈ candidates, suitable requiredExtensions requiredFlags d = false) :
    select candidates requiredExtensions requiredFlags =
      .error SelectError.NoSuitableDeviceError ∧
    survivors candidates requiredExtensions requiredFlags = [] := by
  have hsurv : survivors candidates requiredExtensions requiredFlags = [] := by
    apply List.eq_nil_iff_forall_not_mem.2
    intro d hd
    obtain ⟨hmem, hsuit⟩ := (mem_survivors _ _ _ _).1 hd
    rw [h d hmem] at hsuit
    cases hsuit
  exact ⟨by simp [select, hsurv, minByKey], hsurv⟩

/-- C7 witness: a single candidate lacking the swapchain extension is
unsuitable, so `select` fails and the survivor list is empty. -/
theorem C7_select_fails_when_none_suitable_witness :
    select [⟨[], [⟨[QueueFlag.Graphics], true⟩],
        PhysicalDeviceType.DiscreteGpu⟩] device_extensions GRAPHICS =
      .error SelectError.NoSuitableDeviceError ∧
    survivors [⟨[], [⟨[QueueFlag.Graphics], true⟩],
        PhysicalDeviceType.DiscreteGpu⟩] device_extensions GRAPHICS = [] :=
  C7_select_fails_when_none_suitable _ device_extensions GRAPHICS (by decide)

/-! ### Claim C8 -/

/-- C8: when no queue family of a device has flags fully containing the
required flags, `resolve` fails with `NoQueueFamilyError` and returns no
index. -/
theorem C8_resolve_fails_when_no_containing_family
    (d : PhysicalDevice) (requiredFlags : List QueueFlag)
    (h : ∀ q ∈ d.queue_family_properties,
      containsAll q.queue_flags requiredFlags = false) :
    resolve d requiredFlags = .error ResolveError.NoQueueFamilyError := by
  have hnone : position (fun q => containsAll q.queue_flags requiredFlags)
      d.queue_family_properties = none := (position_eq_none_iff _ _).2 h
  simp [resolve, hnone]

/-- C8 witness: required flags `{Compute}` against families `{Graphics}` and
`{Transfer}`, none of which contains `Compute`. -/
theorem C8_resolve_fails_witness :
    resolve ⟨["VK_KHR_swapchain"],
        [⟨[QueueFlag.Graphics], true⟩, ⟨[QueueFlag.Transfer], true⟩],
        PhysicalDeviceType.DiscreteGpu⟩ [QueueFlag.Compute] =
      .error ResolveError.NoQueueFamilyError :=
  C8_resolve_fails_when_no_containing_family _ [QueueFlag.Compute] (by decide)

/-! ### Claim C9 -/

/-- C9: a flag set intersects the singleton `GRAPHICS` exactly when it
contains it, hence every device returned by `select` with the program's
criteria (required flags `GRAPHICS`) has a family that fully contains
`GRAPHICS`, so the subsequent `resolve` always succeeds and its
`NoQueueFamilyError` branch is unreachable for selected devices. -/
theorem C9_resolve_never_fails_on_selected
    (a : List QueueFlag) (candidates : List PhysicalDevice)
    (d : PhysicalDevice)
    (h : select candidates device_extensions GRAPHICS = .ok d) :
    intersects a GRAPHICS = containsAll a GRAPHICS ∧
    ∃ i, resolve d GRAPHICS = .ok i := by
  refine ⟨intersects_graphics_eq_containsAll a, ?_⟩
  have hmem := minByKey_mem _ _ _ ((select_eq_ok_iff _ _ _ _).1 h)
  obtain ⟨-, hsuit⟩ := (mem_survivors _ _ _ _).1 hmem
  simp only [suitable, Bool.and_eq_true] at hsuit
  obtain ⟨q, hq, hint⟩ := (position_isSome_iff _ _).1 hsuit.2
  have hcont : containsAll q.queue_flags GRAPHICS = true := by
    rw [← intersects_graphics_eq_containsAll]
    exact hint
  have hsome : (position (fun q => containsAll q.queue_flags GRAPHICS)
      d.queue_family_properties).isSome = true :=
    (position_isSome_iff _ _).2 ⟨q, hq, hcont⟩
  obtain ⟨i, hi⟩ := Option.isSome_iff_exists.1 hsome
  exact ⟨i, (resolve_eq_ok_iff _ _ _).2 hi⟩

/-- C9 witness: a concrete selection after which `resolve` succeeds. -/
theorem C9_resolve_never_fails_on_selected_witness :
    intersects [QueueFlag.Transfer] GRAPHICS =
      containsAll [QueueFlag.Transfer] GRAPHICS ∧
    ∃ i, resolve ⟨["VK_KHR_swapchain"],
        [⟨[QueueFlag.Transfer], true⟩, ⟨[QueueFlag.Graphics], true⟩],
        PhysicalDeviceType.DiscreteGpu⟩ GRAPHICS = .ok i :=
  C9_resolve_never_fails_on_selected [QueueFlag.Transfer]
    [⟨["VK_KHR_swapchain"],
      [⟨[QueueFlag.Transfer], true⟩, ⟨[QueueFlag.Graphics], true⟩],
      PhysicalDeviceType.DiscreteGpu⟩]
    ⟨["VK_KHR_swapchain"],
      [⟨[QueueFlag.Transfer], true⟩, ⟨[QueueFlag.Graphics], true⟩],
      PhysicalDeviceType.DiscreteGpu⟩ rfl

/-! ### Claim C10 -/

/-- C10: the requested swapchain image count is the maximum of the
surface-reported minimum and 2, hence at least 2 and at least the
surface-reported value. -/
theorem C10_min_image_count_bounds (surfaceMinImageCount : Nat) :
    requestedMinImageCount surfaceMinImageCount =
      Nat.max surfaceMinImageCount 2 ∧
    2 ≤ requestedMinImageCount surfaceMinImageCount ∧
    surfaceMinImageCount ≤ requestedMinImageCount surfaceMinImageCount :=
  ⟨rfl, Nat.le_max_right _ 2, Nat.le_max_left _ 2⟩
